import Mathlib

set_option maxRecDepth 4096

/-!
Verification development for the `linkedin_bot` repository.

Shallow embedding of `generate_message.py` (two-stage Ollama pipeline) and
`generate_graphs.py` (per-run and historical chart renderer), with theorems
checking the natural-language specification against the code.

Conventions of the embedding:
* The Ollama HTTP endpoint is modelled as a function from the index of the
  issued request (0 for the first call of a run, 1 for the second, ...) to an
  abstract outcome `CallOutcome`: success with a response body, or one of the
  four failure modes handled by `call_ollama`.
* File system reads are modelled by a function `String → Option String`
  (path to file contents; `none` means the file does not exist).
* `print(..., file=sys.stderr)` and `print(...)` are modelled as lists of
  emitted lines; `sys.exit(n)` as the resulting exit code.
* Python truthiness of an optional string (`if not extracted_info:`) is
  modelled by `pyFalsy`.
* Pandas CSV reads are modelled by `CsvRead`: the file may be missing
  (`FileNotFoundError`), completely empty (`pd.errors.EmptyDataError`),
  fail with an arbitrary exception message, or yield a list of parsed rows.
-/

namespace LinkedinBot

/-! ## Embedding of `src/generate_message.py` -/

def OLLAMA_API_URL : String := "http://localhost:11434/api/generate"

def MODEL_NAME : String := "llama3.1:8b-instruct-q4_K_S"

/-- The fixed sampling options of the request payload (lines 19-23). -/
structure OllamaOptions where
  temperature : ℚ
  top_k : ℕ
  top_p : ℚ
deriving DecidableEq, Repr

/-- One HTTP request to the generation endpoint, as built by `call_ollama`
(payload of lines 15-28 plus the `timeout=600` argument of line 31). -/
structure OllamaRequest where
  url : String
  model : String
  prompt : String
  stream : Bool
  options : OllamaOptions
  system : Option String
  format : Option String
  timeoutSeconds : ℕ
deriving DecidableEq, Repr

/-- Abstract outcome of one endpoint interaction, covering the four
exception handlers of `call_ollama` (lines 34-45) and the success path. -/
inductive CallOutcome where
  | timeout
  | transportError (msg : String)
  | jsonDecodeError
  | missingResponseKey
  | success (text : String)
deriving DecidableEq, Repr

/-- The request `call_ollama` builds from its arguments: `stream: False`,
fixed options, `system` only when the system message is non-empty,
`format` only when given, 600-second timeout. -/
def mkRequest (prompt system_message : String) (response_format : Option String) :
    OllamaRequest :=
  { url := OLLAMA_API_URL
    model := MODEL_NAME
    prompt := prompt
    stream := false
    options := { temperature := 7/10, top_k := 40, top_p := 9/10 }
    system := if system_message = "" then none else some system_message
    format := response_format
    timeoutSeconds := 600 }

/-- Value returned by `call_ollama`: the `response` field on success,
`None` on every failure mode. -/
def callResult : CallOutcome → Option String
  | .success text => some text
  | _ => none

/-- Diagnostic printed to stderr by `call_ollama` for each failure mode
(lines 35, 38, 41, 44); nothing on success. -/
def callDiagnostic : CallOutcome → Option String
  | .timeout => some "Error: Ollama API call timed out after 600 seconds."
  | .transportError e => some ("Error calling Ollama API: " ++ e)
  | .jsonDecodeError =>
      some "Error: Could not decode JSON response from Ollama API."
  | .missingResponseKey =>
      some ("Error: \x27response\x27 key not found in Ollama API response.")
  | .success _ => none

/-- The mutable context threaded through a run: the endpoint behaviour,
the trace of issued requests, and the stderr lines emitted so far. -/
structure CallState where
  endpoint : ℕ → CallOutcome
  issued : List OllamaRequest
  stderrLines : List String

/-- `call_ollama(prompt, system_message, response_format)`: builds the
request, issues it (recording it in the trace), and returns the optional
response text. It never raises: every failure mode is caught and converted
to a `None` return plus a stderr diagnostic. -/
def call_ollama (st : CallState) (prompt system_message : String)
    (response_format : Option String) : Option String × CallState :=
  let req := mkRequest prompt system_message response_format
  let outcome := st.endpoint st.issued.length
  (callResult outcome,
    { st with
        issued := st.issued ++ [req]
        stderrLines := st.stderrLines ++ (callDiagnostic outcome).toList })

/-- The extraction-stage system message (lines 51-65), verbatim. -/
def extraction_system_message : String :=
  "You are an AI assistant that extracts key professional information from raw HTML content of a LinkedIn profile.\n" ++
  "    Focus on extracting:\n" ++
  "    - User\x27s Name\n" ++
  "    - Current Job Title and Company\n" ++
  "    - Previous Job Titles and Companies\n" ++
  "    - Education (Degrees, Universities)\n" ++
  "    - Key Skills/Expertise\n" ++
  "    - Any notable achievements or projects (briefly)\n" ++
  "    - Industries they have worked in\n" ++
  "    - Location\n" ++
  "\n" ++
  "    Format the output as a concise, readable summary, using bullet points for lists.\n" ++
  "    Do NOT include any personal opinions, greetings, or conversational filler.\n" ++
  "    If information is not present, omit that section.\n" ++
  "    "

/-- The extraction prompt (line 69). -/
def extraction_prompt (html_content : String) : String :=
  "Extract professional information from the following LinkedIn profile HTML:\n\n"
    ++ html_content

/-- `extract_profile_info(html_content)` (lines 47-70). -/
def extract_profile_info (st : CallState) (html_content : String) :
    Option String × CallState :=
  call_ollama st (extraction_prompt html_content) extraction_system_message none

/-- The composition-stage system message (lines 76-85), parameterized on
the person name, verbatim. -/
def message_system_message (person_name : String) : String :=
  "You are an AI assistant that generates a polite and concise LinkedIn connection request message based on extracted professional information.\n" ++
  "    The message should be:\n" ++
  "    - Personalized using the person\x27s name (" ++ person_name ++ ").\n" ++
  "    - Professional and to the point (max 2-3 sentences).\n" ++
  "    - Briefly mention a commonality or reason for connecting based on the extracted info (e.g., shared industry, interesting role, common skill).\n" ++
  "    - End with a polite closing.\n" ++
  "    - Do NOT include any greetings like \"Hello\" or \"Hi [Name]\", just start with the message content directly.\n" ++
  "    - Do NOT include your own name or signature.\n" ++
  "    - Ensure the message is under 200 characters, as LinkedIn connection notes have a character limit.\n" ++
  "    "

/-- The composition prompt (line 86). -/
def message_prompt (person_name extracted_info : String) : String :=
  "Generate a LinkedIn connection message for " ++ person_name ++
    " based on their profile summary:\n\n" ++ extracted_info

/-- `generate_connection_message(extracted_info, person_name)` (lines 72-87). -/
def generate_connection_message (st : CallState)
    (extracted_info person_name : String) : Option String × CallState :=
  call_ollama st (message_prompt person_name extracted_info)
    (message_system_message person_name) none

/-- Python truthiness test `not x` for an optional string: `None` and the
empty string are falsy. -/
def pyFalsy : Option String → Bool
  | none => true
  | some s => s = ""

/-- Observable result of one run of the script: exit code, stdout lines,
the trace of endpoint requests issued, and stderr lines. -/
structure ExecResult where
  exitCode : ℕ
  stdoutLines : List String
  issued : List OllamaRequest
  stderrLines : List String
deriving DecidableEq, Repr

def usage_message : String :=
  "Usage: python generate_message.py <profile_html_path> <person_name>"

/-- The body of the `__main__` block after argument parsing (lines
100-127): file existence check, the two sequential stages, the final
emission, and the exception handlers of lines 122-127. -/
def generate_message_run (profile_html_path person_name : String)
    (fs : String → Option String) (endpoint : ℕ → CallOutcome) : ExecResult :=
  match fs profile_html_path with
  | none =>
      { exitCode := 1, stdoutLines := [], issued := [],
        stderrLines :=
          ["Error: HTML file not found at " ++ profile_html_path] }
  | some html_content =>
      let r1 := extract_profile_info ⟨endpoint, [], []⟩ html_content
      if pyFalsy r1.1 then
        { exitCode := 1, stdoutLines := [], issued := r1.2.issued,
          stderrLines := r1.2.stderrLines ++
            ["Failed to extract profile information from LLM."] }
      else
        let extracted_info := r1.1.getD ""
        let r2 := generate_connection_message r1.2 extracted_info person_name
        if pyFalsy r2.1 then
          { exitCode := 1, stdoutLines := [], issued := r2.2.issued,
            stderrLines := r2.2.stderrLines ++
              ["Failed to generate connection message from LLM."] }
        else
          { exitCode := 0, stdoutLines := [r2.1.getD ""],
            issued := r2.2.issued, stderrLines := r2.2.stderrLines }

/-- The `__main__` block of `generate_message.py` (lines 89-127): the
argument-count check of lines 93-95 followed by the pipeline body on
`sys.argv[1]` and `sys.argv[2]`. -/
def generate_message_main (argv : List String) (fs : String → Option String)
    (endpoint : ℕ → CallOutcome) : ExecResult :=
  if argv.length < 3 then
    { exitCode := 1, stdoutLines := [], issued := [],
      stderrLines := [usage_message] }
  else
    generate_message_run (argv.getD 1 "") (argv.getD 2 "") fs endpoint

/-- With at least three argv entries the run is the pipeline body on the
first two positional arguments. -/
theorem generate_message_main_cons (a0 p n : String) (rest : List String)
    (fs : String → Option String) (endpoint : ℕ → CallOutcome) :
    generate_message_main (a0 :: p :: n :: rest) fs endpoint =
      generate_message_run p n fs endpoint := by
  unfold generate_message_main
  rw [if_neg (by simp only [List.length_cons]; omega)]
  rfl

/-! ## Embedding of `src/generate_graphs.py` -/

/-- One CSV row with the schema
`RunID, Timestamp, ConnectionsMade, TotalConnectButtonsFound, TotalProfilesScanned`. -/
structure RunRow where
  RunID : String
  Timestamp : String
  ConnectionsMade : ℤ
  TotalConnectButtonsFound : ℤ
  TotalProfilesScanned : ℤ
deriving DecidableEq, Repr

/-- Result of a `pd.read_csv` call: the file may be missing
(`FileNotFoundError`), completely empty (`pd.errors.EmptyDataError`), the
read or subsequent processing may raise an arbitrary exception, or the
file parses into a list of rows. -/
inductive CsvRead where
  | missing
  | emptyFile
  | readError (msg : String)
  | rows (rs : List RunRow)
deriving DecidableEq, Repr

/-- Outcome of the per-run chart phase (lines 7-54). -/
inductive PerRunOutcome where
  | skippedMissing (msg : String)
  | failed (msg : String)
  | skippedAllZero (msg : String)
  | chart (labels : List String) (values : List ℤ) (path : String)
deriving DecidableEq, Repr

/-- The three bar-chart labels (line 29). -/
def per_run_labels : List String :=
  ["Successful Connects", "Unsuccessful/Skipped Connects",
   "Profiles without Connect Button"]

/-- The three bar-chart values (lines 18-30): connections made, then the
two derived metrics clamped to be non-negative. -/
def per_run_values (row : RunRow) : List ℤ :=
  [row.ConnectionsMade,
   max 0 (row.TotalConnectButtonsFound - row.ConnectionsMade),
   max 0 (row.TotalProfilesScanned - row.TotalConnectButtonsFound)]

/-- `filtered_labels` (line 33): labels whose paired value is positive. -/
def filtered_labels (row : RunRow) : List String :=
  ((per_run_labels.zip (per_run_values row)).filter
    (fun p => decide (0 < p.2))).map Prod.fst

/-- `filtered_values` (line 34): the positive values. -/
def filtered_values (row : RunRow) : List ℤ :=
  (per_run_values row).filter (fun v => decide (0 < v))

/-- The per-run chart phase: the `try` block of lines 9-48 with the
handlers of lines 50-54. An empty data frame makes `iloc[0]` raise, which
the generic handler catches; any other exception is likewise caught. -/
def per_run_step (current_run_dir : String) (csv : CsvRead) : PerRunOutcome :=
  let current_run_csv_path := current_run_dir ++ "/report.csv"
  match csv with
  | .missing =>
      .skippedMissing ("Current run CSV not found at " ++ current_run_csv_path
        ++ ". Skipping per-run chart.")
  | .emptyFile =>
      .failed ("Error generating per-run chart from " ++ current_run_csv_path
        ++ ": No columns to parse from file")
  | .readError e =>
      .failed ("Error generating per-run chart from " ++ current_run_csv_path
        ++ ": " ++ e)
  | .rows [] =>
      .failed ("Error generating per-run chart from " ++ current_run_csv_path
        ++ ": single positional indexer is out-of-bounds")
  | .rows (row :: _) =>
      if (filtered_values row).isEmpty then
        .skippedAllZero ("No data to plot for per-run chart in "
          ++ current_run_dir ++ " (all values are zero).")
      else
        .chart (filtered_labels row) (filtered_values row)
          (current_run_dir ++ "/connections_per_run.png")

/-- `pd.to_datetime(..., format="%Y%m%d_%H%M%S")` on one cell: the string
must be eight digits, an underscore, then six digits, with the field
ranges of a time of day and a calendar-style month/day. On success the
key `YYYYMMDDHHMMSS` (as a number) is returned; its numeric order agrees
with chronological order. -/
def parse_timestamp (s : String) : Option ℕ :=
  match s.data with
  | [y1, y2, y3, y4, mo1, mo2, d1, d2, u, h1, h2, mi1, mi2, s1, s2] =>
      let dv : Char → ℕ := fun c => c.toNat - 48
      let year := ((dv y1 * 10 + dv y2) * 10 + dv y3) * 10 + dv y4
      let month := dv mo1 * 10 + dv mo2
      let day := dv d1 * 10 + dv d2
      let hour := dv h1 * 10 + dv h2
      let minute := dv mi1 * 10 + dv mi2
      let second := dv s1 * 10 + dv s2
      if u = '_' ∧
          [y1, y2, y3, y4, mo1, mo2, d1, d2, h1, h2, mi1, mi2, s1, s2].all
            Char.isDigit ∧
          1 ≤ month ∧ month ≤ 12 ∧ 1 ≤ day ∧ day ≤ 31 ∧
          hour ≤ 23 ∧ minute ≤ 59 ∧ second ≤ 59 then
        some (((((year * 100 + month) * 100 + day) * 100 + hour) * 100
          + minute) * 100 + second)
      else
        none
  | _ => none

/-- Rows tagged with their parsed timestamp key (column `Timestamp` after
`pd.to_datetime`); only used on rows whose timestamps all parse. -/
def keyedRows (rs : List RunRow) : List (ℕ × RunRow) :=
  rs.map (fun r => ((parse_timestamp r.Timestamp).getD 0, r))

/-- Comparison used by `sort_values("Timestamp")`. -/
def keyLE (a b : ℕ × RunRow) : Prop := a.1 ≤ b.1

instance : DecidableRel keyLE := fun a b => Nat.decLe a.1 b.1

instance : IsTotal (ℕ × RunRow) keyLE := ⟨fun a b => Nat.le_total a.1 b.1⟩

instance : IsTrans (ℕ × RunRow) keyLE := ⟨fun _ _ _ => Nat.le_trans⟩

/-- `master_df.sort_values("Timestamp")` (line 62), modelled by a sort of
the keyed rows. With distinct keys any correct sort gives this result. -/
def sortedRows (rs : List RunRow) : List (ℕ × RunRow) :=
  List.insertionSort keyLE (keyedRows rs)

/-- The `OtherInteractions` column (lines 66-68). -/
def otherInteractions (r : RunRow) : ℤ :=
  max 0 (r.TotalProfilesScanned - r.ConnectionsMade)

/-- The plotted point sequence of the historical chart, in plot order:
timestamp key, `ConnectionsMade`, `OtherInteractions` (lines 75-76). -/
def hist_points (rs : List RunRow) : List (ℕ × ℤ × ℤ) :=
  (sortedRows rs).map (fun p => (p.1, p.2.ConnectionsMade, otherInteractions p.2))

/-- Outcome of the historical chart phase (lines 56-98). -/
inductive HistOutcome where
  | skippedMissing (msg : String)
  | skippedEmpty (msg : String)
  | failed (msg : String)
  | skippedNoRows (msg : String)
  | chart (points : List (ℕ × ℤ × ℤ)) (path : String)
deriving DecidableEq, Repr

/-- The historical chart phase: the `try` block of lines 58-91 with the
handlers of lines 93-98. A timestamp cell that does not match the fixed
format makes `pd.to_datetime` raise, caught by the generic handler. -/
def historical_step (results_dir : String) (csv : CsvRead) : HistOutcome :=
  let master_csv_path := results_dir ++ "/master_report.csv"
  match csv with
  | .missing =>
      .skippedMissing ("Master CSV not found at " ++ master_csv_path
        ++ ". Skipping all-runs chart (first run?).")
  | .emptyFile =>
      .skippedEmpty ("Master CSV at " ++ master_csv_path
        ++ " is empty. Skipping all-runs chart.")
  | .readError e =>
      .failed ("Error generating all-runs chart from " ++ master_csv_path
        ++ ": " ++ e)
  | .rows rs =>
      if rs.all (fun r => (parse_timestamp r.Timestamp).isSome) then
        if rs.length < 1 then
          .skippedNoRows ("Not enough data in master CSV ("
            ++ toString rs.length ++ " rows) for all-runs chart. Skipping.")
        else
          .chart (hist_points rs) (results_dir ++ "/historical_connections.png")
      else
        .failed ("Error generating all-runs chart from " ++ master_csv_path
          ++ ": time data does not match format")

/-- Combined result of `generate_graphs(current_run_dir, results_dir)`:
the function runs both phases in sequence and never raises. -/
structure GraphsResult where
  perRun : PerRunOutcome
  hist : HistOutcome
deriving DecidableEq, Repr

/-- `generate_graphs(current_run_dir, results_dir)` (lines 6-98). -/
def generate_graphs (current_run_dir results_dir : String)
    (current_csv master_csv : CsvRead) : GraphsResult :=
  ⟨per_run_step current_run_dir current_csv,
   historical_step results_dir master_csv⟩

def graphs_usage : String :=
  "Usage: python generate_graphs.py <current_run_dir> <results_dir>"

/-- The `__main__` block of `generate_graphs.py` (lines 100-108): exit 1 on
argument-count mismatch, otherwise run `generate_graphs` and exit 0. -/
def generate_graphs_main (argv : List String)
    (current_csv master_csv : CsvRead) : ℕ × Option GraphsResult :=
  if argv.length ≠ 3 then (1, none)
  else (0, some (generate_graphs (argv.getD 1 "") (argv.getD 2 "")
    current_csv master_csv))

/-! ## Theorems -/

/-- C7: for every profile document path that does not exist on disk, the
Message Generator exits with code 1, writes a diagnostic containing the
given path to the error stream, writes nothing to standard output, and
issues no generation call. -/
theorem C7_missing_document_aborts (a0 p n : String) (rest : List String)
    (fs : String → Option String) (endpoint : ℕ → CallOutcome)
    (h : fs p = none) :
    generate_message_main (a0 :: p :: n :: rest) fs endpoint =
      { exitCode := 1, stdoutLines := [], issued := [],
        stderrLines := ["Error: HTML file not found at " ++ p] } ∧
    ∃ pre post,
      "Error: HTML file not found at " ++ p = pre ++ p ++ post := by
  refine ⟨?_, "Error: HTML file not found at ", "", ?_⟩
  · rw [generate_message_main_cons]
    simp [generate_message_run, h]
  · rw [String.append_empty]

/-- C7 witness at a concrete missing path. -/
theorem C7_missing_document_aborts_witness :
    generate_message_main ["generate_message.py", "gone.html", "Jane Doe"]
        (fun _ => none) (fun _ => .timeout) =
      { exitCode := 1, stdoutLines := [], issued := [],
        stderrLines := ["Error: HTML file not found at " ++ "gone.html"] } :=
  (C7_missing_document_aborts "generate_message.py" "gone.html" "Jane Doe" []
    (fun _ => none) (fun _ => .timeout) rfl).1

/-- C9: both stages issue their request through `call_ollama` with the same
fixed parameters: non-streaming, 600-second timeout, temperature 0.7,
top-k 40, top-p 0.9; no stage-specific tuning of url, model, stream,
timeout, or sampling options. -/
theorem C9_fixed_request_parameters (st : CallState)
    (html extracted person : String) :
    ∃ r1 r2 : OllamaRequest,
      (extract_profile_info st html).2.issued = st.issued ++ [r1] ∧
      (generate_connection_message st extracted person).2.issued =
        st.issued ++ [r2] ∧
      r1.stream = false ∧ r1.timeoutSeconds = 600 ∧
      r1.options = ⟨7/10, 40, 9/10⟩ ∧
      r2.stream = r1.stream ∧ r2.timeoutSeconds = r1.timeoutSeconds ∧
      r2.options = r1.options ∧ r2.url = r1.url ∧ r2.model = r1.model :=
  ⟨mkRequest (extraction_prompt html) extraction_system_message none,
   mkRequest (message_prompt person extracted) (message_system_message person)
     none,
   rfl, rfl, rfl, rfl, rfl, rfl, rfl, rfl, rfl, rfl⟩

/-- C3: the Report Renderer never lets an exception escape: its exit code
is 1 exactly on argument-count mismatch and 0 otherwise; each chart phase
depends only on its own CSV input; and an arbitrary exception in either
phase becomes a logged failure terminating only that chart. -/
theorem C3_renderer_error_containment (argv : List String)
    (cur mas cur2 mas2 : CsvRead) (d rdir e : String) :
    (generate_graphs_main argv cur mas).1 =
      (if argv.length = 3 then 0 else 1) ∧
    (generate_graphs_main argv cur mas).2 =
      (if argv.length = 3 then
        some (generate_graphs (argv.getD 1 "") (argv.getD 2 "") cur mas)
      else none) ∧
    (generate_graphs d rdir cur mas).perRun =
      (generate_graphs d rdir cur mas2).perRun ∧
    (generate_graphs d rdir cur mas).hist =
      (generate_graphs d rdir cur2 mas).hist ∧
    per_run_step d (.readError e) =
      .failed ("Error generating per-run chart from "
        ++ (d ++ "/report.csv") ++ ": " ++ e) ∧
    historical_step rdir (.readError e) =
      .failed ("Error generating all-runs chart from "
        ++ (rdir ++ "/master_report.csv") ++ ": " ++ e) := by
  refine ⟨?_, ?_, rfl, rfl, rfl, rfl⟩ <;>
    by_cases h : argv.length = 3 <;> simp [generate_graphs_main, h]

/-- C10: the Message Generator rejects only fewer than three argv entries;
with more than two positional arguments the extras are ignored (the run
equals the run on the first three entries), while the Report Renderer
exits 1 whenever the argument count is not exactly two positionals. -/
theorem C10_argument_count_contrast (argv : List String)
    (fs : String → Option String) (endpoint : ℕ → CallOutcome)
    (cur mas : CsvRead) :
    (argv.length < 3 →
      generate_message_main argv fs endpoint =
        { exitCode := 1, stdoutLines := [], issued := [],
          stderrLines := [usage_message] }) ∧
    (3 ≤ argv.length →
      generate_message_main argv fs endpoint =
        generate_message_main (argv.take 3) fs endpoint) ∧
    (generate_graphs_main argv cur mas).1 =
      (if argv.length = 3 then 0 else 1) := by
  refine ⟨?_, ?_, ?_⟩
  · intro h
    simp [generate_message_main, h]
  · intro h
    match argv, h with
    | a :: b :: c :: t, _ =>
      rw [generate_message_main_cons,
        show (a :: b :: c :: t).take 3 = a :: b :: c :: ([] : List String)
          from rfl,
        generate_message_main_cons]
  · by_cases h : argv.length = 3 <;> simp [generate_graphs_main, h]

/-- C10 witness: a four-argument invocation of the Message Generator
behaves as the three-argument one, and four arguments make the Report
Renderer exit 1. -/
theorem C10_argument_count_contrast_witness :
    generate_message_main ["gen", "p.html", "Jane", "extra"] (fun _ => none)
        (fun _ => .timeout) =
      generate_message_main (["gen", "p.html", "Jane", "extra"].take 3)
        (fun _ => none) (fun _ => .timeout) ∧
    (generate_graphs_main ["gen", "a", "b", "c"] .missing .missing).1 = 1 := by
  constructor
  · exact (C10_argument_count_contrast ["gen", "p.html", "Jane", "extra"]
      (fun _ => none) (fun _ => .timeout) .missing .missing).2.1 (by simp)
  · have h := (C10_argument_count_contrast ["gen", "a", "b", "c"]
      (fun _ => none) (fun _ => .timeout) .missing .missing).2.2
    simpa using h

/-- C2: for non-negative report fields, the derived metrics of the per-run
chart are the clamped differences (hence non-negative), a category whose value is
zero never appears in the plotted label set, and when all three values are
zero no chart is produced and a notice is logged instead. -/
theorem C2_per_run_chart_shape (d rid ts : String) (cm bf sc : ℤ)
    (hcm : 0 ≤ cm) (hbf : 0 ≤ bf) (hsc : 0 ≤ sc) :
    per_run_values ⟨rid, ts, cm, bf, sc⟩ =
      [cm, max 0 (bf - cm), max 0 (sc - bf)] ∧
    0 ≤ max 0 (bf - cm) ∧ 0 ≤ max 0 (sc - bf) ∧
    ("Successful Connects" ∈ filtered_labels ⟨rid, ts, cm, bf, sc⟩ ↔
      0 < cm) ∧
    ("Unsuccessful/Skipped Connects" ∈ filtered_labels ⟨rid, ts, cm, bf, sc⟩ ↔
      0 < max 0 (bf - cm)) ∧
    ("Profiles without Connect Button" ∈
        filtered_labels ⟨rid, ts, cm, bf, sc⟩ ↔
      0 < max 0 (sc - bf)) ∧
    (cm = 0 ∧ max 0 (bf - cm) = 0 ∧ max 0 (sc - bf) = 0 →
      per_run_step d (.rows [⟨rid, ts, cm, bf, sc⟩]) =
        .skippedAllZero ("No data to plot for per-run chart in " ++ d
          ++ " (all values are zero).")) := by
  refine ⟨rfl, le_max_left _ _, le_max_left _ _, ?_, ?_, ?_, ?_⟩
  · by_cases h1 : 0 < cm <;> by_cases h2 : 0 < max 0 (bf - cm) <;>
      by_cases h3 : 0 < max 0 (sc - bf) <;>
      simp [filtered_labels, per_run_labels, per_run_values, h1, h2, h3]
  · by_cases h1 : 0 < cm <;> by_cases h2 : 0 < max 0 (bf - cm) <;>
      by_cases h3 : 0 < max 0 (sc - bf) <;>
      simp [filtered_labels, per_run_labels, per_run_values, h1, h2, h3]
  · by_cases h1 : 0 < cm <;> by_cases h2 : 0 < max 0 (bf - cm) <;>
      by_cases h3 : 0 < max 0 (sc - bf) <;>
      simp [filtered_labels, per_run_labels, per_run_values, h1, h2, h3]
  · rintro ⟨h1, h2, h3⟩
    have hempty : filtered_values ⟨rid, ts, cm, bf, sc⟩ = [] := by
      simp only [filtered_values, per_run_values]
      rw [h2, h3, h1]
      rfl
    simp [per_run_step, hempty]

/-- C2 witness: an all-zero row yields the logged notice and no chart. -/
theorem C2_per_run_chart_shape_witness :
    (0 : ℤ) ≤ 0 ∧
    per_run_step "run" (.rows [⟨"r1", "t", 0, 0, 0⟩]) =
      .skippedAllZero ("No data to plot for per-run chart in " ++ "run"
        ++ " (all values are zero).") :=
  ⟨by decide,
   (C2_per_run_chart_shape "run" "r1" "t" 0 0 0 (by decide) (by decide)
      (by decide)).2.2.2.2.2.2 (by decide)⟩

/-- C8: per ledger row the second series of the historical chart is
`max 0 (scanned − connectionsMade)` (non-negative); with zero rows the
historical step is skipped with a log message, and with at least one row
whose timestamps all parse, both series are plotted. -/
theorem C8_historical_series (rdir : String) (rows : List RunRow)
    (r0 : RunRow) :
    otherInteractions r0 =
      max 0 (r0.TotalProfilesScanned - r0.ConnectionsMade) ∧
    0 ≤ otherInteractions r0 ∧
    historical_step rdir (.rows []) =
      .skippedNoRows ("Not enough data in master CSV (" ++ "0"
        ++ " rows) for all-runs chart. Skipping.") ∧
    (rows ≠ [] → (∀ r ∈ rows, (parse_timestamp r.Timestamp).isSome) →
      historical_step rdir (.rows rows) =
        .chart (hist_points rows) (rdir ++ "/historical_connections.png")) := by
  refine ⟨rfl, le_max_left _ _, ?_, ?_⟩
  · have h0 : (toString (0 : ℕ)) = "0" := rfl
    simp [historical_step, h0]
  · intro hne hall
    have hcond :
        rows.all (fun r => (parse_timestamp r.Timestamp).isSome) = true :=
      List.all_eq_true.mpr hall
    have hlen : ¬ rows.length < 1 := by
      have := List.length_pos.mpr hne
      omega
    simp [historical_step, hcond, hlen]

/-- C8 witness: a one-row ledger with a well-formed timestamp yields the
two-series historical chart. -/
theorem C8_historical_series_witness :
    ([⟨"r1", "20230101_120000", 1, 2, 3⟩] : List RunRow) ≠ [] ∧
    historical_step "res" (.rows [⟨"r1", "20230101_120000", 1, 2, 3⟩]) =
      .chart (hist_points [⟨"r1", "20230101_120000", 1, 2, 3⟩])
        ("res" ++ "/historical_connections.png") :=
  ⟨by decide,
   (C8_historical_series "res" [⟨"r1", "20230101_120000", 1, 2, 3⟩]
      ⟨"r1", "20230101_120000", 1, 2, 3⟩).2.2.2 (by decide) (by decide)⟩

/-- Every first-stage outcome either fails the Python truthiness test of
line 109 or is a success carrying non-empty text. -/
theorem falsy_or_nonempty_success (o : CallOutcome) :
    pyFalsy (callResult o) = true ∨ ∃ t, o = .success t ∧ t ≠ "" := by
  cases o with
  | success t =>
      by_cases ht : t = ""
      · subst ht
        left
        rfl
      · exact Or.inr ⟨t, rfl, ht⟩
  | _ => left; rfl

/-- If the extraction stage yields no usable text, the run aborts after
the single extraction request. -/
theorem run_first_stage_fails (p n html : String)
    (fs : String → Option String) (ep : ℕ → CallOutcome)
    (hfs : fs p = some html) (h : pyFalsy (callResult (ep 0)) = true) :
    generate_message_run p n fs ep =
      { exitCode := 1, stdoutLines := [],
        issued :=
          [mkRequest (extraction_prompt html) extraction_system_message none],
        stderrLines := (callDiagnostic (ep 0)).toList ++
          ["Failed to extract profile information from LLM."] } := by
  simp [generate_message_run, extract_profile_info, call_ollama, hfs, h]

/-- If extraction succeeds with non-empty text but composition yields no
usable text, the run aborts after both requests. -/
theorem run_second_stage_fails (p n html t : String)
    (fs : String → Option String) (ep : ℕ → CallOutcome)
    (hfs : fs p = some html) (h1 : ep 0 = .success t) (ht : t ≠ "")
    (h2 : pyFalsy (callResult (ep 1)) = true) :
    generate_message_run p n fs ep =
      { exitCode := 1, stdoutLines := [],
        issued :=
          [mkRequest (extraction_prompt html) extraction_system_message none,
           mkRequest (message_prompt n t) (message_system_message n) none],
        stderrLines := (callDiagnostic (ep 1)).toList ++
          ["Failed to generate connection message from LLM."] } := by
  have hft : pyFalsy (callResult (CallOutcome.success t)) = false := by
    simp [pyFalsy, callResult, ht]
  have hd1 : (callDiagnostic (CallOutcome.success t)).toList = [] := rfl
  have hgt : (callResult (CallOutcome.success t)).getD "" = t := rfl
  simp [generate_message_run, extract_profile_info,
    generate_connection_message, call_ollama, hfs, h1, hft, h2, hd1, hgt]

/-- A fully successful run: both requests issued, exit 0, stdout is the
second response body. -/
theorem run_success (p n html t m : String) (fs : String → Option String)
    (ep : ℕ → CallOutcome) (hfs : fs p = some html)
    (h1 : ep 0 = .success t) (ht : t ≠ "") (h2 : ep 1 = .success m)
    (hm : m ≠ "") :
    generate_message_run p n fs ep =
      { exitCode := 0, stdoutLines := [m],
        issued :=
          [mkRequest (extraction_prompt html) extraction_system_message none,
           mkRequest (message_prompt n t) (message_system_message n) none],
        stderrLines := [] } := by
  have hft : pyFalsy (callResult (CallOutcome.success t)) = false := by
    simp [pyFalsy, callResult, ht]
  have hfm : pyFalsy (callResult (CallOutcome.success m)) = false := by
    simp [pyFalsy, callResult, hm]
  have hgd : (callResult (CallOutcome.success m)).getD "" = m := rfl
  have hgt : (callResult (CallOutcome.success t)).getD "" = t := rfl
  have hd1 : (callDiagnostic (CallOutcome.success t)).toList = [] := rfl
  have hd2 : (callDiagnostic (CallOutcome.success m)).toList = [] := rfl
  simp [generate_message_run, extract_profile_info,
    generate_connection_message, call_ollama, hfs, h1, h2, hft, hfm, hgd,
    hgt, hd1, hd2]

/-- C1: when the extraction-stage call fails (no text is returned), the
Message Generator exits 1 with nothing on stdout and only the extraction
request ever issued; conversely a second request is issued only if the
first returned a non-empty summary. -/
theorem C1_extraction_failure_blocks_composition (a0 p n : String)
    (rest : List String) (fs : String → Option String)
    (endpoint : ℕ → CallOutcome) (html : String) (hfs : fs p = some html) :
    (callResult (endpoint 0) = none →
      (generate_message_main (a0 :: p :: n :: rest) fs endpoint).exitCode = 1 ∧
      (generate_message_main (a0 :: p :: n :: rest) fs
        endpoint).stdoutLines = [] ∧
      (generate_message_main (a0 :: p :: n :: rest) fs endpoint).issued =
        [mkRequest (extraction_prompt html) extraction_system_message none]) ∧
    (2 ≤ (generate_message_main (a0 :: p :: n :: rest) fs
        endpoint).issued.length →
      ∃ t, endpoint 0 = .success t ∧ t ≠ "") := by
  constructor
  · intro hnone
    have hfalsy : pyFalsy (callResult (endpoint 0)) = true := by
      rw [hnone]; rfl
    rw [generate_message_main_cons,
      run_first_stage_fails p n html fs endpoint hfs hfalsy]
    exact ⟨rfl, rfl, rfl⟩
  · intro h2le
    rcases falsy_or_nonempty_success (endpoint 0) with hf | ⟨t, h0, ht⟩
    · exfalso
      rw [generate_message_main_cons,
        run_first_stage_fails p n html fs endpoint hfs hf] at h2le
      simp at h2le
    · exact ⟨t, h0, ht⟩

/-- C1 witness: a timed-out extraction call aborts the run with exit 1 and
exactly one issued request. -/
theorem C1_extraction_failure_blocks_composition_witness :
    (generate_message_main ["gen", "p.html", "Jane"]
        (fun q => if q = "p.html" then some "<html>" else none)
        (fun _ => .timeout)).exitCode = 1 ∧
    (generate_message_main ["gen", "p.html", "Jane"]
        (fun q => if q = "p.html" then some "<html>" else none)
        (fun _ => .timeout)).stdoutLines = [] :=
  have h := (C1_extraction_failure_blocks_composition "gen" "p.html" "Jane" []
    (fun q => if q = "p.html" then some "<html>" else none)
    (fun _ => .timeout) "<html>" (by simp)).1 rfl
  ⟨h.1, h.2.1⟩

/-- C4: on a successful two-stage run, the composition request carries the
system instruction parameterized on the person name and a prompt containing
the extraction text, stdout is exactly the second response body, the exit
code is 0, and an exit code of 0 happens only on full success with a
non-empty message. -/
theorem C4_composition_request_and_emission (a0 p n : String)
    (rest : List String) (fs : String → Option String)
    (endpoint : ℕ → CallOutcome) (html t m : String)
    (hfs : fs p = some html) (h1 : endpoint 0 = .success t) (ht : t ≠ "")
    (h2 : endpoint 1 = .success m) (hm : m ≠ "") :
    (generate_message_main (a0 :: p :: n :: rest) fs endpoint).exitCode = 0 ∧
    (generate_message_main (a0 :: p :: n :: rest) fs
      endpoint).stdoutLines = [m] ∧
    (generate_message_main (a0 :: p :: n :: rest) fs endpoint).issued =
      [mkRequest (extraction_prompt html) extraction_system_message none,
       mkRequest (message_prompt n t) (message_system_message n) none] ∧
    (mkRequest (message_prompt n t) (message_system_message n) none).system =
      some (message_system_message n) ∧
    (∃ pre post, message_system_message n = pre ++ n ++ post) ∧
    (∃ pre, message_prompt n t = pre ++ t) ∧
    (∀ ep2 : ℕ → CallOutcome,
      (generate_message_main (a0 :: p :: n :: rest) fs ep2).exitCode = 0 →
      ∃ m2, m2 ≠ "" ∧ ep2 1 = .success m2 ∧
        (generate_message_main (a0 :: p :: n :: rest) fs
          ep2).stdoutLines = [m2] ∧
        ∃ t2, ep2 0 = .success t2 ∧ t2 ≠ "") := by
  have hrun := run_success p n html t m fs endpoint hfs h1 ht h2 hm
  refine ⟨?_, ?_, ?_, ?_, ?_, ?_, ?_⟩
  · rw [generate_message_main_cons, hrun]
  · rw [generate_message_main_cons, hrun]
  · rw [generate_message_main_cons, hrun]
  · have hne : message_system_message n ≠ "" := by
      intro hcontra
      have h0 := congrArg String.length hcontra
      rw [message_system_message] at h0
      simp only [String.length_append, String.length_empty] at h0
      have hpos : 0 <
          ("You are an AI assistant that generates a polite and concise LinkedIn connection request message based on extracted professional information.\n").length := by
        decide
      omega
    simp [mkRequest, hne]
  · refine ⟨"You are an AI assistant that generates a polite and concise LinkedIn connection request message based on extracted professional information.\n" ++
      "    The message should be:\n" ++
      "    - Personalized using the person\x27s name (",
      ").\n" ++
      "    - Professional and to the point (max 2-3 sentences).\n" ++
      "    - Briefly mention a commonality or reason for connecting based on the extracted info (e.g., shared industry, interesting role, common skill).\n" ++
      "    - End with a polite closing.\n" ++
      "    - Do NOT include any greetings like \"Hello\" or \"Hi [Name]\", just start with the message content directly.\n" ++
      "    - Do NOT include your own name or signature.\n" ++
      "    - Ensure the message is under 200 characters, as LinkedIn connection notes have a character limit.\n" ++
      "    ", ?_⟩
    simp only [message_system_message, String.append_assoc]
  · exact ⟨"Generate a LinkedIn connection message for " ++ n ++
      " based on their profile summary:\n\n", rfl⟩
  · intro ep2 hzero
    rcases falsy_or_nonempty_success (ep2 0) with hf | ⟨t2, h0, ht2⟩
    · exfalso
      rw [generate_message_main_cons,
        run_first_stage_fails p n html fs ep2 hfs hf] at hzero
      simp at hzero
    · rcases falsy_or_nonempty_success (ep2 1) with hf2 | ⟨m2, h1', hm2⟩
      · exfalso
        rw [generate_message_main_cons,
          run_second_stage_fails p n html t2 fs ep2 hfs h0 ht2 hf2] at hzero
        simp at hzero
      · refine ⟨m2, hm2, h1', ?_, t2, h0, ht2⟩
        rw [generate_message_main_cons,
          run_success p n html t2 m2 fs ep2 hfs h0 ht2 h1' hm2]

/-- C4 witness: a fully successful concrete run emits exactly the second
response body and exits 0. -/
theorem C4_composition_request_and_emission_witness :
    (generate_message_main ["gen", "p.html", "Jane"]
        (fun q => if q = "p.html" then some "<html>" else none)
        (fun i => if i = 0 then .success "summary" else .success "msg")
      ).exitCode = 0 ∧
    (generate_message_main ["gen", "p.html", "Jane"]
        (fun q => if q = "p.html" then some "<html>" else none)
        (fun i => if i = 0 then .success "summary" else .success "msg")
      ).stdoutLines = ["msg"] :=
  have h := C4_composition_request_and_emission "gen" "p.html" "Jane" []
    (fun q => if q = "p.html" then some "<html>" else none)
    (fun i => if i = 0 then .success "summary" else .success "msg")
    "<html>" "summary" "msg" (by simp) (by simp) (by simp) (by simp) (by simp)
  ⟨h.1, h.2.1⟩

/-- If the first `k` characters of `a` differ from those of `c` (and `a`
has at least `k` characters), then `a ++ b` is not `c`. -/
theorem append_ne_of_take_ne (a b c : String) (k : ℕ)
    (h : a.data.take k ≠ c.data.take k) (hk : k ≤ a.data.length) :
    a ++ b ≠ c := by
  intro he
  apply h
  calc a.data.take k = (a.data ++ b.data).take k :=
        (List.take_append_of_le_length hk).symm
    _ = c.data.take k := by rw [← String.data_append, he]

/-- C6: the four failure modes of a generation call produce pairwise
distinct diagnostics, yet all four return no result from `call_ollama`
(which never raises), and any one of them at the extraction stage collapses
to the same control-flow outcome: exit 1 after a single issued request. -/
theorem C6_failure_modes_distinct_but_collapse (e : String) :
    callDiagnostic .timeout ≠ callDiagnostic (.transportError e) ∧
    callDiagnostic .timeout ≠ callDiagnostic .jsonDecodeError ∧
    callDiagnostic .timeout ≠ callDiagnostic .missingResponseKey ∧
    callDiagnostic (.transportError e) ≠ callDiagnostic .jsonDecodeError ∧
    callDiagnostic (.transportError e) ≠ callDiagnostic .missingResponseKey ∧
    callDiagnostic .jsonDecodeError ≠ callDiagnostic .missingResponseKey ∧
    callResult .timeout = none ∧ callResult (.transportError e) = none ∧
    callResult .jsonDecodeError = none ∧
    callResult .missingResponseKey = none ∧
    (∀ o : CallOutcome, callResult o = none →
      ∀ (a0 p n html : String) (fs : String → Option String),
        fs p = some html →
        (generate_message_main [a0, p, n] fs (fun _ => o)).exitCode = 1 ∧
        (generate_message_main [a0, p, n] fs
          (fun _ => o)).issued.length = 1) := by
  refine ⟨?_, by decide, by decide, ?_, ?_, by decide, rfl, rfl, rfl, rfl, ?_⟩
  · simp only [callDiagnostic, ne_eq, Option.some.injEq]
    intro h
    exact append_ne_of_take_ne "Error calling Ollama API: " e
      "Error: Ollama API call timed out after 600 seconds." 7 (by decide)
      (by decide) h.symm
  · simp only [callDiagnostic, ne_eq, Option.some.injEq]
    intro h
    exact append_ne_of_take_ne "Error calling Ollama API: " e
      "Error: Could not decode JSON response from Ollama API." 7 (by decide)
      (by decide) h
  · simp only [callDiagnostic, ne_eq, Option.some.injEq]
    intro h
    exact append_ne_of_take_ne "Error calling Ollama API: " e
      "Error: \x27response\x27 key not found in Ollama API response." 7
      (by decide) (by decide) h
  · intro o hnone a0 p n html fs hfs
    have hfalsy : pyFalsy (callResult ((fun _ : ℕ => o) 0)) = true := by
      show pyFalsy (callResult o) = true
      rw [hnone]
      rfl
    rw [generate_message_main_cons a0 p n [] fs (fun _ => o),
      run_first_stage_fails p n html fs (fun _ => o) hfs hfalsy]
    exact ⟨rfl, rfl⟩

/-- C6 witness: the timeout mode returns no result and aborts a concrete
run with exit 1. -/
theorem C6_failure_modes_distinct_but_collapse_witness :
    callResult CallOutcome.timeout = none ∧
    (generate_message_main ["gen", "p.html", "Jane"]
        (fun q => if q = "p.html" then some "<x>" else none)
        (fun _ => CallOutcome.timeout)).exitCode = 1 :=
  have h := C6_failure_modes_distinct_but_collapse "boom"
  ⟨h.2.2.2.2.2.2.1,
   (h.2.2.2.2.2.2.2.2.2.2 CallOutcome.timeout rfl "gen" "p.html" "Jane" "<x>"
      (fun q => if q = "p.html" then some "<x>" else none) (by simp)).1⟩

/-- Strict ordering on timestamp keys. -/
def keyLT (a b : ℕ × RunRow) : Prop := a.1 < b.1

/-- A list sorted under `keyLE` whose keys are distinct is sorted under
the strict `keyLT`. -/
theorem pairwise_keyLT_of_keyLE {l : List (ℕ × RunRow)}
    (hs : l.Pairwise keyLE) (hn : (l.map Prod.fst).Nodup) :
    l.Pairwise keyLT := by
  have hn' : l.Pairwise (fun a b => a.1 ≠ b.1) := List.pairwise_map.mp hn
  exact (hs.and hn').imp (fun h => Nat.lt_of_le_of_ne h.1 h.2)

/-- C5: for a ledger whose rows have distinct parseable timestamps, the
historical chart is invariant under any permutation of the input rows, and
its plotted sequence is the timestamp-sorted ordering of the rows
(non-decreasing timestamp order). -/
theorem C5_historical_order_invariance (rdir : String)
    (rows rows2 : List RunRow) (hperm : rows2.Perm rows)
    (hparse : ∀ r ∈ rows, (parse_timestamp r.Timestamp).isSome)
    (hnodup : ((keyedRows rows).map Prod.fst).Nodup) :
    historical_step rdir (.rows rows2) = historical_step rdir (.rows rows) ∧
    (sortedRows rows).Pairwise keyLE ∧
    (hist_points rows).Pairwise (fun a b => a.1 ≤ b.1) ∧
    (sortedRows rows).Perm (keyedRows rows) := by
  have hparse2 : ∀ r ∈ rows2, (parse_timestamp r.Timestamp).isSome :=
    fun r hr => hparse r (hperm.subset hr)
  have hall : rows.all (fun r => (parse_timestamp r.Timestamp).isSome) =
      true := List.all_eq_true.mpr hparse
  have hall2 : rows2.all (fun r => (parse_timestamp r.Timestamp).isSome) =
      true := List.all_eq_true.mpr hparse2
  have hlen : rows2.length = rows.length := hperm.length_eq
  have hs2 : (sortedRows rows).Pairwise keyLE :=
    List.sorted_insertionSort keyLE (keyedRows rows)
  have hpermS : (sortedRows rows).Perm (keyedRows rows) :=
    List.perm_insertionSort keyLE (keyedRows rows)
  have hsorted_eq : sortedRows rows2 = sortedRows rows := by
    have hpermK : (keyedRows rows2).Perm (keyedRows rows) := hperm.map _
    have hp1 : (sortedRows rows2).Perm (sortedRows rows) :=
      (List.perm_insertionSort keyLE (keyedRows rows2)).trans
        (hpermK.trans hpermS.symm)
    have hs1 : (sortedRows rows2).Pairwise keyLE :=
      List.sorted_insertionSort keyLE (keyedRows rows2)
    have hnodup_s : ((sortedRows rows).map Prod.fst).Nodup :=
      ((hpermS.map Prod.fst).nodup_iff).mpr hnodup
    have hnodup_s2 : ((sortedRows rows2).map Prod.fst).Nodup :=
      ((hp1.map Prod.fst).nodup_iff).mpr hnodup_s
    haveI : IsAntisymm (ℕ × RunRow) keyLT :=
      ⟨fun a b h h' => absurd (Nat.lt_trans h h') (Nat.lt_irrefl _)⟩
    exact List.eq_of_perm_of_sorted hp1
      (pairwise_keyLT_of_keyLE hs1 hnodup_s2)
      (pairwise_keyLT_of_keyLE hs2 hnodup_s)
  refine ⟨?_, hs2, ?_, hpermS⟩
  · by_cases hl : rows.length < 1
    · simp [historical_step, hall, hall2, hlen, hl]
    · simp [historical_step, hall, hall2, hlen, hl, hist_points, hsorted_eq]
  · exact List.pairwise_map.mpr (hs2.imp (fun h => h))

/-- C5 witness: a two-row ledger given in reversed timestamp order renders
the same historical chart as the timestamp-ordered ledger. -/
theorem C5_historical_order_invariance_witness :
    historical_step "res"
        (.rows [⟨"r2", "20230101_000000", 2, 2, 2⟩,
                ⟨"r1", "20230102_000000", 1, 1, 1⟩]) =
      historical_step "res"
        (.rows [⟨"r1", "20230102_000000", 1, 1, 1⟩,
                ⟨"r2", "20230101_000000", 2, 2, 2⟩]) :=
  (C5_historical_order_invariance "res"
    [⟨"r1", "20230102_000000", 1, 1, 1⟩, ⟨"r2", "20230101_000000", 2, 2, 2⟩]
    [⟨"r2", "20230101_000000", 2, 2, 2⟩, ⟨"r1", "20230102_000000", 1, 1, 1⟩]
    (by decide) (by decide) (by decide)).1

end LinkedinBot
